import Mathlib

/-!
Verification of the writing-assistant backend (FastAPI/Python) against its
natural-language specification.  The Python sources are shallowly embedded:
pure string manipulation becomes Lean functions on `String`/`List`, HTTP and
filesystem effects become explicit oracle parameters, and Python exceptions
become `Except`/`Option` results.  All definitions are translated from the
source files (`services/go_api_client.py`, `services/gemini_service.py`,
`services/file_service.py`, `routers/projects.py`, `routers/chat.py`); the
two batch-fetch client methods that the orchestrator calls but that are not
defined anywhere in the repository are modelled from the spec and flagged as
such in their doc comments.
-/

/-! ## Python string primitives -/

/-- Python `sep.join(xs)`: the empty string for `[]`, otherwise the elements
separated by `sep`. -/
def pyJoin (sep : String) : List String → String
  | [] => ""
  | [x] => x
  | x :: y :: xs => x ++ sep ++ pyJoin sep (y :: xs)

/-- Python's substring test `pat in s` (used by the error classifier in
`GeminiChatService.generate_response`). -/
def pyIn (pat s : String) : Prop := pat.data <:+: s.data

instance (pat s : String) : Decidable (pyIn pat s) := by
  unfold pyIn; exact inferInstance

/-- Python `s.startswith(pre)`. -/
def pyStartsWith (s pre : String) : Bool := pre.data.isPrefixOf s.data

/-- Splitting a character list on a separator character; Python's
`str.split(sep)` for a one-character separator (the source only splits on
`":"` and `","`). -/
def splitOnCharAux (sep : Char) : List Char → List (List Char)
  | [] => [[]]
  | c :: rest =>
    let r := splitOnCharAux sep rest
    if c = sep then [] :: r
    else
      match r with
      | [] => [[c]]
      | h :: t => (c :: h) :: t

/-- Python `s.split(sep)` for a one-character separator string. -/
def pySplit (s : String) (sep : Char) : List String :=
  (splitOnCharAux sep s.data).map String.mk

/-- ASCII lower-casing of one character; on the ASCII error substrings the
classifier tests (`"timeout"`, `"quota"`, `"limit"`) this agrees with
Python's `str.lower`. -/
def charLower (c : Char) : Char :=
  if 'A' ≤ c ∧ c ≤ 'Z' then Char.ofNat (c.toNat + 32) else c

/-- Model of Python `s.lower()` (ASCII faithful). -/
def pyLower (s : String) : String := ⟨s.data.map charLower⟩

/-- ASCII whitespace (model of Python `str.strip`'s whitespace class). -/
def pyIsSpace (c : Char) : Bool :=
  c = ' ' || c = '\t' || c = '\n' || c = '\r' || c = '\x0b' || c = '\x0c'

/-- Model of Python `s.strip()`: drop whitespace from both ends. -/
def pyStrip (s : String) : String :=
  ⟨((s.data.dropWhile pyIsSpace).reverse.dropWhile pyIsSpace).reverse⟩

/-- Fuel-driven worker for `pyReplace`; the fuel starts at the length of the
list, so it never runs out. -/
def pyReplaceAux (pat repl : List Char) : Nat → List Char → List Char
  | _, [] => []
  | 0, l => l
  | Nat.succ fuel, c :: rest =>
    if pat.isPrefixOf (c :: rest) then
      repl ++ pyReplaceAux pat repl fuel (rest.drop (pat.length - 1))
    else c :: pyReplaceAux pat repl fuel rest

/-- Python `s.replace(pat, repl)` for a non-empty pattern: replace all
non-overlapping occurrences left to right (the source only replaces the
`<br>` tag variants). -/
def pyReplace (s pat repl : String) : String :=
  if pat.data = [] then s
  else ⟨pyReplaceAux pat.data repl.data s.data.length s.data⟩

/-! ## Records fetched from the Go API

The sibling data service returns JSON arrays of records (Python dicts); the
formatters read the keys `episode_no` / `title` / `content` / `created_at`
with `dict.get` defaults, so each field is modelled as an `Option String`. -/

structure Episode where
  episode_no : Option String
  title : Option String
  content : Option String
deriving DecidableEq, Repr

structure MaterialRecord where
  title : Option String
  content : Option String
  created_at : Option String
deriving DecidableEq, Repr

/-! ## Context Formatter (`services/go_api_client.py`, lines 110-157) -/

/-- The three lines the loop body of `format_episodes_for_context` appends for
one episode: a header, the (possibly truncated) content, an end marker. -/
def episode_block (max_length : Nat) (episode : Episode) : List String :=
  let episode_no := episode.episode_no.getD "?"
  let title := episode.title.getD "無題"
  let content := episode.content.getD ""
  ["\n--- Episode " ++ episode_no ++ ": " ++ title ++ " ---",
   if content.length > max_length then
     content.take max_length ++
       ("\n... (残り" ++ toString (content.length - max_length) ++ "文字省略)")
   else content,
   "--- エピソード終了 ---"]

/-- The list `formatted` built by `format_episodes_for_context` before the
final `"\n".join`; the loop is a left fold over the episode list. -/
def format_episodes_lines (episodes : List Episode) (max_length : Nat) : List String :=
  (episodes.foldl (fun acc e => acc ++ episode_block max_length e)
      ["=== 参照エピソード ==="]) ++ ["=== 参照エピソード終了 ===\n"]

/-- `format_episodes_for_context(episodes, max_length=5000)`. -/
def format_episodes_for_context (episodes : List Episode) (max_length : Nat) : String :=
  if episodes = [] then ""
  else pyJoin "\n" (format_episodes_lines episodes max_length)

/-- The three lines appended per material by `format_materials_for_context`. -/
def material_block (max_length : Nat) (material : MaterialRecord) : List String :=
  let title := material.title.getD "無題"
  let content := material.content.getD ""
  let created_at := material.created_at.getD ""
  ["\n--- 資料: " ++ title ++ " (" ++ created_at ++ ") ---",
   if content.length > max_length then
     content.take max_length ++
       ("\n... (残り" ++ toString (content.length - max_length) ++ "文字省略)")
   else content,
   "--- 資料終了 ---"]

/-- The list built by `format_materials_for_context` before the join. -/
def format_materials_lines (materials : List MaterialRecord) (max_length : Nat) : List String :=
  (materials.foldl (fun acc m => acc ++ material_block max_length m)
      ["=== 参考資料 ==="]) ++ ["=== 参考資料終了 ===\n"]

/-- `format_materials_for_context(materials, max_length=5000)`. -/
def format_materials_for_context (materials : List MaterialRecord) (max_length : Nat) : String :=
  if materials = [] then ""
  else pyJoin "\n" (format_materials_lines materials max_length)

/-! ## Chat data model (`models/schemas.py`) -/

/-- `ChatMessage`: `id` and `ts` are optional in the schema; the service
fills both when it constructs a reply. -/
structure ChatMessage where
  id : Option String
  role : String
  content : String
  ts : Option Int
deriving DecidableEq, Repr

/-- `ChatRequest`: `sources` defaults to `[]` (Python `None` and `[]` are
both falsy, so the default list models both). -/
structure ChatRequest where
  messages : List ChatMessage
  sources : List String
  context : Option String
deriving DecidableEq, Repr

/-! ## Remote Data Client fetch operations

The repository's materials batch fetch by ids is `fetch_materials_by_ids`
(`routers/chat.py`, lines 86-103); the episode client is
`GoAPIClient.get_episodes` (`services/go_api_client.py`, lines 23-42) — an
episodes-by-ids batch method does not exist (`gemini_service.py` awaits
`get_episodes_by_ids` / `get_materials_by_ids`, which no source file
defines; at run time that `await` raises `AttributeError`, which the caller
catches — the `GenEnv.fetchEpisodes`/`fetchMaterials` oracles below cover
it).  The `httpx` transport is an oracle mapping the URL (and the posted id
list) to an outcome. -/

/-- Outcome of one `httpx` request followed by `raise_for_status()` and
`.json()`: a parsed body, an `httpx.HTTPStatusError` with the response's
status code, or an `httpx.RequestError` (transport failure). -/
inductive HttpxOutcome (α : Type) where
  | success (body : α)
  | statusError (status : Nat)
  | requestError
deriving DecidableEq, Repr

/-- `fastapi.HTTPException(status_code, detail)`. -/
structure HTTPException where
  status_code : Nat
  detail : String
deriving DecidableEq, Repr

/-- `GO_MATERIAL_API_URL` (`routers/chat.py`, line 84). -/
def GO_MATERIAL_API_URL : String := "http://localhost:8080/api/materials/batch"

/-- `fetch_materials_by_ids` (`routers/chat.py`, lines 86-103): POST the id
list to the batch endpoint; on `httpx.RequestError` raise
`HTTPException(500, ...)`, on `httpx.HTTPStatusError` raise
`HTTPException(upstream status, ...)`; on success return the parsed body. -/
def fetch_materials_by_ids
    (post : String → List Int → HttpxOutcome (List MaterialRecord))
    (ids : List Int) : Except HTTPException (List MaterialRecord) :=
  match post GO_MATERIAL_API_URL ids with
  | HttpxOutcome.success materials => Except.ok materials
  | HttpxOutcome.requestError =>
      Except.error ⟨500, "Failed to fetch materials from Go API"⟩
  | HttpxOutcome.statusError status =>
      Except.error ⟨status, "Go API returned error"⟩

/-- The exception re-raised by `GoAPIClient.get_episodes`. -/
inductive GoApiError where
  | statusError (status : Nat)
  | transportError
deriving DecidableEq, Repr

/-- `GoAPIClient.get_episodes` (`services/go_api_client.py`, lines 23-42):
GET the book's episode list; a 404 returns `[]`, every other
`httpx.HTTPStatusError` and any other exception is re-raised. -/
def get_episodes (base_url : String) (get : String → HttpxOutcome (List Episode))
    (book_id : String) : Except GoApiError (List Episode) :=
  match get (base_url ++ "/api/books/" ++ book_id ++ "/episodes") with
  | HttpxOutcome.success episodes => Except.ok episodes
  | HttpxOutcome.statusError status =>
      if status = 404 then Except.ok []
      else Except.error (GoApiError.statusError status)
  | HttpxOutcome.requestError => Except.error GoApiError.transportError

/-! ## Chat Orchestrator (`GeminiChatService.generate_response`)

Effects become oracle fields of `GenEnv`:
* `fetchEpisodes`/`fetchMaterials` - the awaited calls on `go_api_client`;
  `Except.error` models any exception the `await` raises (which the caller
  catches locally), including the `AttributeError` that the missing batch
  methods would raise at run time;
* `getenv` - `os.getenv`;
* `llm` - `requests.post` + `raise_for_status` + `json()` on the GPT-OSS
  endpoint, collapsed to one oracle; `Except.error e` carries `str(e)` of the
  raised exception;
* `unescape` - `html.unescape` (the full HTML entity table);
* `pyHash` - Python's `abs(hash(text))`;
* `now`/`nowMs` - `int(time.time())` and `int(time.time() * 1000)`.
The returned `GenTrace` records whether the LLM HTTP call was issued, the
assembled prompt and, when a call was issued, the dispatched prompt/payload. -/

/-- The JSON body `requests.post` sends (`json=payload`). -/
inductive JsonVal where
  | str (s : String)
  | bool (b : Bool)
  | num (n : Int)
deriving DecidableEq, Repr

/-- The parsed GPT-OSS response body; `response_data.get("response", "")`
reads the `response` key with default `""`. -/
structure LLMResponse where
  response : Option String
deriving DecidableEq, Repr

structure GenEnv where
  system_prompts : String → Option String
  fetchEpisodes : String → List String → Except Unit (List Episode)
  fetchMaterials : String → List String → Except Unit (List MaterialRecord)
  getenv : String → Option String
  llm : List (String × JsonVal) → Except String LLMResponse
  unescape : String → String
  pyHash : String → Nat
  now : Nat
  nowMs : Nat

structure GenTrace where
  llmCalled : Bool
  assembled : Option String
  sentPrompt : Option String
  sentPayload : Option (List (String × JsonVal))
deriving DecidableEq, Repr

/-- Lines 376-378: prompts beyond 30,000 characters are cut and marked. -/
def truncate_prompt (prompt : String) : String :=
  if prompt.length > 30000 then
    prompt.take 30000 ++ "\n\n[プロンプトが長いため省略されました]"
  else prompt

/-- Line 420: `payload = {"model": "gpt-oss:120b", "prompt": prompt,
"stream": False}`. -/
def llm_payload (prompt : String) : List (String × JsonVal) :=
  [("model", JsonVal.str "gpt-oss:120b"),
   ("prompt", JsonVal.str prompt),
   ("stream", JsonVal.bool false)]

/-- Lines 469-479: map the exception text to a user-facing message by
substring tests. -/
def classify_error (error_message : String) : String :=
  if pyIn "504" error_message ∨ pyIn "timeout" (pyLower error_message) then
    "サーバーの応答に時間がかかっています。プロンプトを短くして再度お試しください。"
  else if pyIn "API_KEY" error_message then
    "API設定に問題があります。管理者にお問い合わせください。"
  else if pyIn "quota" (pyLower error_message) ∨ pyIn "limit" (pyLower error_message) then
    "API利用制限に達しています。しばらくお待ちください。"
  else
    "申し訳ございません。エラーが発生しました: " ++ error_message.take 100

/-- Lines 465-489: the `except Exception` boundary turns any escaped
exception into an assistant message. -/
def handle_llm_exception (error_message : String) (now nowMs : Nat) : ChatMessage :=
  { id := some ("error-" ++ toString now), role := "assistant",
    content := classify_error error_message, ts := some (Int.ofNat nowMs) }

/-- Lines 342-351: the Japanese label for the data kind. -/
def data_type_ja (chat_type : String) : String :=
  if chat_type = "project" then "プロジェクト" else "参考資料"

/-- Lines 346-351: the short-circuit reply naming the missing descriptors. -/
def missing_data_message (chat_type : String) (content_not_found : List String)
    (now nowMs : Nat) : ChatMessage :=
  { id := some ("error-" ++ toString now), role := "assistant",
    content := ("申し訳ございません。指定された" ++ data_type_ja chat_type ++ "（") ++
      pyJoin ", " content_not_found ++
      ("）が見つかりません。\n\n" ++ data_type_ja chat_type ++
       "が正しく登録されているか確認してください。"),
    ts := some (Int.ofNat nowMs) }

/-- Lines 387-409: replies for missing GPT-OSS configuration. -/
def config_error_message (content : String) (now nowMs : Nat) : ChatMessage :=
  { id := some ("error-" ++ toString now), role := "assistant",
    content := content, ts := some (Int.ofNat nowMs) }

/-- Lines 430-435: entity-unescape the `response` field and turn the three
`<br>` variants into newlines. -/
def clean_llm_response (unescape : String → String) (raw : String) : String :=
  pyReplace (pyReplace (pyReplace (unescape raw) "<br>" "\n") "<br/>" "\n") "<br />" "\n"

/-- Lines 443-453: fallback text when the cleaned reply is whitespace-only
(dead in practice: the first substitution already made it non-empty). -/
def empty_fallback_text (chat_type : String) (has_context : Bool) : String :=
  let d := if chat_type = "project" then "プロジェクト"
           else if chat_type = "material" then "参考資料" else "データ"
  if has_context then
    "申し訳ございません。" ++ d ++
      "の内容を参照しましたが、適切な応答を生成できませんでした。質問を具体的にしていただくか、別の表現でお試しください。"
  else
    "申し訳ございません。参照する" ++ d ++
      "が見つからないか、内容が不十分で適切な応答を生成できませんでした。" ++ d ++
      "を確認してから再度お試しください。"

/-- Lines 359-361: one history line per prior message. -/
def history_line (msg : ChatMessage) : String :=
  (if msg.role = "user" then "ユーザー" else "アシスタント") ++ ": " ++ msg.content

/-- Lines 250-253: `episode_ids = parts[2].split(",") if parts[2] else []`
(and the identical computation for material ids). -/
def batch_ids_of (parts : List String) : List String :=
  if parts.getD 2 "" ≠ "" then pySplit (parts.getD 2 "") ',' else []

/-- Loop body of lines 246-286: accumulate `(content_context,
content_not_found)` over one project source descriptor. -/
def process_project_source (env : GenEnv) (acc : String × List String)
    (source : String) : String × List String :=
  if pyStartsWith source "project:" || pyStartsWith source "book:" then
    let parts := pySplit source ':'
    if 3 ≤ parts.length then
      let book_id := parts.getD 1 ""
      match env.fetchEpisodes book_id (batch_ids_of parts) with
      | Except.ok episodes =>
          if episodes ≠ [] then
            (acc.1 ++ format_episodes_for_context episodes 5000, acc.2)
          else (acc.1, acc.2 ++ ["project:" ++ book_id])
      | Except.error _ => (acc.1, acc.2 ++ ["project:" ++ book_id])
    else if 2 ≤ parts.length then
      (acc.1, acc.2 ++ ["book:" ++ parts.getD 1 ""])
    else acc
  else acc

/-- Loop body of lines 288-335: one material source descriptor. -/
def process_material_source (env : GenEnv) (acc : String × List String)
    (source : String) : String × List String :=
  if pyStartsWith source "material:" || pyStartsWith source "book:" then
    let parts := pySplit source ':'
    if 3 ≤ parts.length then
      let book_id := parts.getD 1 ""
      match env.fetchMaterials book_id (batch_ids_of parts) with
      | Except.ok materials =>
          if materials ≠ [] then
            (acc.1 ++ format_materials_for_context materials 5000, acc.2)
          else (acc.1, acc.2 ++ ["material:" ++ book_id])
      | Except.error _ => (acc.1, acc.2 ++ ["material:" ++ book_id])
    else if 2 ≤ parts.length then
      (acc.1, acc.2 ++ ["book:" ++ parts.getD 1 ""])
    else acc
  else acc

/-- Lines 240-335: gather context and missing tags for the request's
sources (only the matching chat types fetch anything). -/
def build_context (env : GenEnv) (request : ChatRequest) (chat_type : String) :
    String × List String :=
  if chat_type = "project" ∧ request.sources ≠ [] then
    request.sources.foldl (process_project_source env) ("", [])
  else if chat_type = "material" ∧ request.sources ≠ [] then
    request.sources.foldl (process_material_source env) ("", [])
  else ("", [])

/-- Lines 353-463: everything after the missing-data short circuit: prompt
assembly, truncation, configuration checks, the LLM call and response
handling. -/
def after_context (env : GenEnv) (request : ChatRequest) (chat_type : String)
    (content_context : String) (content_not_found : List String) :
    ChatMessage × GenTrace :=
  let system_prompt := (env.system_prompts chat_type).getD ""
  let h1 : List String := if system_prompt ≠ "" then ["システム: " ++ system_prompt] else []
  let h2 := if content_context ≠ "" then h1 ++ [content_context] else h1
  let h3 := if request.sources ≠ [] ∧ content_context = "" ∧ content_not_found = [] then
      h2 ++ ["参照するソース: " ++ pyJoin ", " request.sources]
    else h2
  let h4 := h3 ++ request.messages.map history_line
  let prompt0 := pyJoin "\n" h4
  let prompt := truncate_prompt prompt0
  if (env.getenv "GPT_OSS_URL").getD "" = "" then
    (config_error_message "GPT OSSのURLが設定されていません。管理者にお問い合わせください。"
       env.now env.nowMs, ⟨false, some prompt0, none, none⟩)
  else if (env.getenv "GPT_OSS_PASSWORD").getD "" = "" ∨
      (env.getenv "GPT_OSS_PASSWORD").getD "" = "Your-Pass-Word" then
    (config_error_message "GPT OSSのパスワードが設定されていません。管理者にお問い合わせください。"
       env.now env.nowMs, ⟨false, some prompt0, none, none⟩)
  else
    let payload := llm_payload prompt
    match env.llm payload with
    | Except.error e =>
        (handle_llm_exception e env.now env.nowMs,
         ⟨true, some prompt0, some prompt, some payload⟩)
    | Except.ok data =>
        let t0 := clean_llm_response env.unescape (data.response.getD "")
        let t1 := if t0 = "" ∨ pyStrip t0 = "" then
            "申し訳ございません。AIからの応答が空でした。" else t0
        let t2 := if pyStrip t1 = "" then
            empty_fallback_text chat_type (content_context ≠ "") else t1
        ({ id := some ("msg-" ++ toString env.now ++ "-" ++
              toString (env.pyHash t2 % 10000)),
           role := "assistant", content := t2, ts := some (Int.ofNat env.nowMs) },
         ⟨true, some prompt0, some prompt, some payload⟩)

/-- `GeminiChatService.generate_response` (lines 225-489).  Total by
construction: the Python body sits inside one `try`/`except Exception`
boundary, so the model returns a `ChatMessage` on every path. -/
def generate_response (env : GenEnv) (request : ChatRequest) (chat_type : String) :
    ChatMessage × GenTrace :=
  let cc_nf := build_context env request chat_type
  if cc_nf.1 = "" ∧ cc_nf.2 ≠ [] then
    (missing_data_message chat_type cc_nf.2 env.now env.nowMs,
     ⟨false, none, none, none⟩)
  else after_context env request chat_type cc_nf.1 cc_nf.2

/-! ## File Store Accessor (`services/file_service.py`) -/

/-- `FileService.supported_extensions`. -/
def supported_extensions : List String :=
  [".txt", ".md", ".py", ".js", ".ts", ".html", ".css", ".json"]

/-- A file on disk as `FileService._read_text_file` observes it: its
(dot-included) extension, its byte size, and the outcomes of the two decode
attempts.  `utf8Decode`/`cp932Decode` are `none` when `open(...).read()`
raises `UnicodeDecodeError` for that encoding (for example the bytes
`ff fe ff` fail both); `some s` is the decoded text.  Non-decode I/O errors
land in the outer `except Exception` and also yield `None`, which the
`none`/`none` case covers. -/
structure DiskFile where
  suffix : String
  size : Nat
  utf8Decode : Option String
  cp932Decode : Option String
deriving DecidableEq, Repr

/-- `FileService._read_text_file` (lines 20-45): reject unsupported
extensions, reject files over 10 MB, then decode as UTF-8, falling back to
cp932; there is no further fallback. -/
def read_text_file (f : DiskFile) : Option String :=
  if pyLower f.suffix ∉ supported_extensions then none
  else if f.size > 10 * 1024 * 1024 then none
  else
    match f.utf8Decode with
    | some s => some s
    | none => f.cp932Decode

/-! ## Projects router (`routers/projects.py`)

The filesystem under the projects root is an association list
`project_id -> ProjDir`; a directory holds its text files (name -> content)
and the `updated_at` stamp of `project_meta.json`.  `urllib.parse.unquote`
is kept abstract as an `unquote : String -> String` parameter, since every
claim here holds for an arbitrary decoder. -/

structure ProjDir where
  files : List (String × String)
  meta_updated_at : Nat
deriving DecidableEq, Repr

abbrev ProjectsFs := List (String × ProjDir)

/-- Writing (creating or overwriting) one file inside a directory. -/
def write_file (files : List (String × String)) (name content : String) :
    List (String × String) :=
  if (files.lookup name).isSome then
    files.map (fun kv => if kv.1 = name then (name, content) else kv)
  else files ++ [(name, content)]

/-- Updating (or creating) one project directory in the projects root. -/
def fs_set (fs : ProjectsFs) (pid : String) (d : ProjDir) : ProjectsFs :=
  if (fs.lookup pid).isSome then
    fs.map (fun kv => if kv.1 = pid then (pid, d) else kv)
  else fs ++ [(pid, d)]

/-- Endpoint results: the happy payload or `HTTPException(status, detail)`. -/
inductive ApiOutcome (α : Type) where
  | ok (val : α)
  | httpError (status : Nat) (detail : String)
deriving DecidableEq, Repr

/-- `rename_project_file` (lines 383-448): 404 when the project directory or
the source file is absent, 409 when the destination name is taken, otherwise
rename the file and refresh the metadata stamp. -/
def rename_project_file (unquote : String → String) (fs : ProjectsFs)
    (project_id old_filename new_filename : String) (now : Nat) :
    ApiOutcome (String × String) × ProjectsFs :=
  match fs.lookup project_id with
  | none => (ApiOutcome.httpError 404 "プロジェクトが見つかりません", fs)
  | some d =>
    let o := unquote old_filename
    let n := unquote new_filename
    if (d.files.lookup o).isNone then
      (ApiOutcome.httpError 404 "変更対象のファイルが見つかりません", fs)
    else if (d.files.lookup n).isSome then
      (ApiOutcome.httpError 409 "新しいファイル名は既に使用されています", fs)
    else
      let d2 : ProjDir :=
        { files := d.files.map (fun kv => if kv.1 = o then (n, kv.2) else kv),
          meta_updated_at := now }
      (ApiOutcome.ok (o, n), fs_set fs project_id d2)

/-- `save_project_file` (lines 268-326, `PUT .../files/{filename}`): the
project directory is created when absent (`mkdir(parents=True,
exist_ok=True)`), the file is written unconditionally, and the response
reports the filename and the UTF-8 byte size of the content. -/
def save_project_file (unquote : String → String) (fs : ProjectsFs)
    (project_id filename content : String) (now : Nat) :
    ApiOutcome (String × Nat) × ProjectsFs :=
  let d := (fs.lookup project_id).getD { files := [], meta_updated_at := now }
  let fname := unquote filename
  let d2 : ProjDir := { files := write_file d.files fname content,
                        meta_updated_at := now }
  (ApiOutcome.ok (fname, content.utf8ByteSize), fs_set fs project_id d2)

/-- `upload_project_file` (lines 208-265, `POST .../files`): 404 when the
project directory is absent; the filename is the form field when that is
non-empty, else the upload's own name; 400 when both are empty.  The
text/binary branch distinction does not affect the stored mapping, so the
body is one write. -/
def upload_project_file (unquote : String → String) (fs : ProjectsFs)
    (project_id : String) (form_filename file_filename : Option String)
    (content : String) (now : Nat) :
    ApiOutcome (String × Nat) × ProjectsFs :=
  match fs.lookup project_id with
  | none => (ApiOutcome.httpError 404 "プロジェクトが見つかりません", fs)
  | some d =>
    let actual := if (form_filename.getD "") ≠ "" then form_filename.getD ""
                  else file_filename.getD ""
    if actual = "" then (ApiOutcome.httpError 400 "ファイル名が必要です", fs)
    else
      let fname := unquote actual
      let d2 : ProjDir := { files := write_file d.files fname content,
                            meta_updated_at := now }
      (ApiOutcome.ok (fname, content.utf8ByteSize), fs_set fs project_id d2)

/-- `delete_project_file` (lines 329-380): 404 when the project directory or
the file is absent, otherwise unlink and refresh metadata. -/
def delete_project_file (unquote : String → String) (fs : ProjectsFs)
    (project_id filename : String) (now : Nat) :
    ApiOutcome String × ProjectsFs :=
  match fs.lookup project_id with
  | none => (ApiOutcome.httpError 404 "プロジェクトが見つかりません", fs)
  | some d =>
    let fname := unquote filename
    if (d.files.lookup fname).isNone then
      (ApiOutcome.httpError 404 "ファイルが見つかりません", fs)
    else
      let d2 : ProjDir := { files := d.files.filter (fun kv => kv.1 != fname),
                            meta_updated_at := now }
      (ApiOutcome.ok fname, fs_set fs project_id d2)

/-! ## Witness fixtures -/

/-- A 30,001-character prompt, for the truncation witness. -/
def bigPrompt : String := ⟨List.replicate 30001 'a'⟩

/-- Environment for the C3 witness: the LLM oracle always raises a timeout,
and the GPT-OSS configuration is present. -/
def envTimeout : GenEnv :=
  { system_prompts := fun _ => none,
    fetchEpisodes := fun _ _ => Except.ok [],
    fetchMaterials := fun _ _ => Except.ok [],
    getenv := fun k => if k = "GPT_OSS_URL" then some "https://llm.example"
              else if k = "GPT_OSS_PASSWORD" then some "pw1" else none,
    llm := fun _ => Except.error "Read timeout",
    unescape := id, pyHash := fun _ => 0, now := 1, nowMs := 1000 }

/-- Environment for the C1 witness: the episode fetch finds nothing and the
material fetch raises; the LLM oracle would answer if it were reached. -/
def envMissing : GenEnv :=
  { system_prompts := fun _ => none,
    fetchEpisodes := fun _ _ => Except.ok [],
    fetchMaterials := fun _ _ => Except.error (),
    getenv := fun _ => some "x",
    llm := fun _ => Except.ok ⟨some "reply"⟩,
    unescape := id, pyHash := fun _ => 0, now := 2, nowMs := 2000 }

/-! ## Source-descriptor predicates (for claim C1) -/

/-- A source descriptor the project branch recognizes (line 248). -/
def project_source_recognized (s : String) : Prop :=
  pyStartsWith s "project:" = true ∨ pyStartsWith s "book:" = true

/-- A source descriptor the material branch recognizes (line 294). -/
def material_source_recognized (s : String) : Prop :=
  pyStartsWith s "material:" = true ∨ pyStartsWith s "book:" = true

/-- The descriptor resolves to zero episode records: when it carries an id
segment, the fetch yields the empty list or raises.  (Descriptors in the
two-part legacy form are recorded as missing without a fetch.) -/
def project_source_missing (env : GenEnv) (s : String) : Prop :=
  3 ≤ (pySplit s ':').length →
    env.fetchEpisodes ((pySplit s ':').getD 1 "") (batch_ids_of (pySplit s ':')) =
      Except.ok [] ∨
    env.fetchEpisodes ((pySplit s ':').getD 1 "") (batch_ids_of (pySplit s ':')) =
      Except.error ()

/-- Material analog of `project_source_missing`. -/
def material_source_missing (env : GenEnv) (s : String) : Prop :=
  3 ≤ (pySplit s ':').length →
    env.fetchMaterials ((pySplit s ':').getD 1 "") (batch_ids_of (pySplit s ':')) =
      Except.ok [] ∨
    env.fetchMaterials ((pySplit s ':').getD 1 "") (batch_ids_of (pySplit s ':')) =
      Except.error ()

/-- The `kind:container` tag recorded in `content_not_found` for a missing
project descriptor. -/
def project_missing_tag (s : String) : String :=
  if 3 ≤ (pySplit s ':').length then "project:" ++ (pySplit s ':').getD 1 ""
  else "book:" ++ (pySplit s ':').getD 1 ""

/-- The `kind:container` tag recorded for a missing material descriptor. -/
def material_missing_tag (s : String) : String :=
  if 3 ≤ (pySplit s ':').length then "material:" ++ (pySplit s ':').getD 1 ""
  else "book:" ++ (pySplit s ':').getD 1 ""

/-! ## General helper lemmas -/

theorem string_data_append (a b : String) : (a ++ b).data = a.data ++ b.data := by
  cases a; cases b; rfl

/-- An element of a joined list is a substring of the join. -/
theorem pyJoin_mem_inf {x : String} {l : List String} (sep : String)
    (h : x ∈ l) : x.data <:+: (pyJoin sep l).data := by
  induction l with
  | nil => cases h
  | cons a l ih =>
    cases l with
    | nil =>
      rw [List.mem_singleton] at h
      subst h
      exact List.infix_rfl
    | cons b l2 =>
      rcases List.mem_cons.mp h with h1 | h1
      · subst h1
        rw [pyJoin, string_data_append, string_data_append, List.append_assoc]
        exact (List.prefix_append _ _).isInfix
      · rw [pyJoin, string_data_append, string_data_append]
        exact (ih h1).trans (List.suffix_append _ _).isInfix

/-- A fold that only appends is the flattened map of its body. -/
theorem foldl_append_flatMap {α β : Type} (f : α → List β) (front : List β)
    (es : List α) :
    es.foldl (fun acc e => acc ++ f e) front = front ++ es.flatMap f := by
  induction es generalizing front with
  | nil => simp
  | cons e es ih => simp [ih, List.append_assoc]

/-- Closed form of the fold: start marker, then the blocks of each record in
order, then the end marker. -/
theorem format_episodes_lines_eq (episodes : List Episode) (max_length : Nat) :
    format_episodes_lines episodes max_length =
      "=== 参照エピソード ===" ::
        (episodes.flatMap (episode_block max_length) ++ ["=== 参照エピソード終了 ===\n"]) := by
  unfold format_episodes_lines
  rw [foldl_append_flatMap]
  rfl

/-- Closed form for the material formatter's line list. -/
theorem format_materials_lines_eq (materials : List MaterialRecord) (max_length : Nat) :
    format_materials_lines materials max_length =
      "=== 参考資料 ===" ::
        (materials.flatMap (material_block max_length) ++ ["=== 参考資料終了 ===\n"]) := by
  unfold format_materials_lines
  rw [foldl_append_flatMap]
  rfl

theorem bigPrompt_long : bigPrompt.length > 30000 := by
  unfold bigPrompt
  show (List.replicate 30001 'a').length > 30000
  rw [List.length_replicate]
  decide

/-- A substring of `m` is a substring of `a ++ m ++ b`. -/
theorem str_inf_extend {x m : String} (a b : String) (h : x.data <:+: m.data) :
    x.data <:+: (a ++ m ++ b).data := by
  rw [string_data_append, string_data_append]
  exact h.trans (((List.suffix_append a.data m.data).isInfix).trans
    (List.prefix_append _ _).isInfix)

/-- `str.split` never returns the empty list. -/
theorem splitOnCharAux_ne_nil (sep : Char) (l : List Char) :
    splitOnCharAux sep l ≠ [] := by
  induction l with
  | nil => simp [splitOnCharAux]
  | cons c rest ih =>
    unfold splitOnCharAux
    dsimp only
    by_cases h : c = sep
    · simp [h]
    · rw [if_neg h]
      cases hr : splitOnCharAux sep rest with
      | nil => exact absurd hr ih
      | cons x t => simp

/-- If the separator occurs, `str.split` returns at least two parts. -/
theorem splitOnCharAux_len_two {sep : Char} {l : List Char} (h : sep ∈ l) :
    2 ≤ (splitOnCharAux sep l).length := by
  induction l with
  | nil => cases h
  | cons c rest ih =>
    unfold splitOnCharAux
    dsimp only
    by_cases hc : c = sep
    · rw [if_pos hc]
      cases hsp : splitOnCharAux sep rest with
      | nil => exact absurd hsp (splitOnCharAux_ne_nil sep rest)
      | cons x t => simp
    · rw [if_neg hc]
      have hmem : sep ∈ rest := by
        rcases List.mem_cons.mp h with h1 | h1
        · exact absurd h1.symm hc
        · exact h1
      have h2 := ih hmem
      cases hsp : splitOnCharAux sep rest with
      | nil => rw [hsp] at h2; simp at h2
      | cons x t =>
        rw [hsp] at h2
        simpa using h2

/-- A source that starts with a prefix containing a colon splits into at
least two parts. -/
theorem pyStartsWith_colon_two {s pre : String} (hp : pyStartsWith s pre = true)
    (hc : ':' ∈ pre.data) : 2 ≤ (pySplit s ':').length := by
  unfold pyStartsWith at hp
  have hpre : pre.data <+: s.data := List.isPrefixOf_iff_prefix.mp hp
  have hmem : ':' ∈ s.data := hpre.subset hc
  unfold pySplit
  rw [List.length_map]
  exact splitOnCharAux_len_two hmem

/-- Every line of a record's block is a line of the whole formatted episode
list, provided the record occurs in the input. -/
theorem mem_format_episodes_lines {episodes : List Episode} {e : Episode}
    (max_length : Nat) (h : e ∈ episodes) {x : String}
    (hx : x ∈ episode_block max_length e) :
    x ∈ format_episodes_lines episodes max_length := by
  rw [format_episodes_lines_eq]
  exact List.mem_cons_of_mem _ (List.mem_append_left _ (List.mem_flatMap.mpr ⟨e, h, hx⟩))

/-- Material version of `mem_format_episodes_lines`. -/
theorem mem_format_materials_lines {materials : List MaterialRecord} {m : MaterialRecord}
    (max_length : Nat) (h : m ∈ materials) {x : String}
    (hx : x ∈ material_block max_length m) :
    x ∈ format_materials_lines materials max_length := by
  rw [format_materials_lines_eq]
  exact List.mem_cons_of_mem _ (List.mem_append_left _ (List.mem_flatMap.mpr ⟨m, h, hx⟩))

/-! ## Claim C2 -/

/-- Counterexample to claim C2: the repository's fetch operations do not
return an empty list on failure — `fetch_materials_by_ids` raises
`HTTPException` (500 for a transport failure, the upstream status for an
HTTP error), and `GoAPIClient.get_episodes` re-raises a 503 HTTP error and
any transport failure; only a 404 yields `[]`. -/
theorem batch_fetch_raises_on_failure_counterexample :
    fetch_materials_by_ids (fun _ _ => HttpxOutcome.requestError) [1, 2] =
      Except.error ⟨500, "Failed to fetch materials from Go API"⟩ ∧
    fetch_materials_by_ids (fun _ _ => HttpxOutcome.statusError 503) [1] =
      Except.error ⟨503, "Go API returned error"⟩ ∧
    get_episodes "http://localhost:8080" (fun _ => HttpxOutcome.statusError 503) "b1" =
      Except.error (GoApiError.statusError 503) ∧
    get_episodes "http://localhost:8080" (fun _ => HttpxOutcome.requestError) "b1" =
      Except.error GoApiError.transportError :=
  ⟨rfl, rfl, rfl, rfl⟩

/-- Claim C2 (amended): the repository's materials batch fetch propagates
every failure as an `HTTPException` — status 500 for a transport failure,
the upstream status for an HTTP error — and returns the parsed list only on
success; the episode client (an episodes-by-ids batch method does not
exist) returns an empty list only for a 404 and re-raises every other HTTP
error and transport failure. -/
theorem batch_fetch_error_propagation :
    (∀ (post : String → List Int → HttpxOutcome (List MaterialRecord)) (ids : List Int),
      (post GO_MATERIAL_API_URL ids = HttpxOutcome.requestError →
        fetch_materials_by_ids post ids =
          Except.error ⟨500, "Failed to fetch materials from Go API"⟩) ∧
      (∀ status, post GO_MATERIAL_API_URL ids = HttpxOutcome.statusError status →
        fetch_materials_by_ids post ids =
          Except.error ⟨status, "Go API returned error"⟩) ∧
      (∀ materials, post GO_MATERIAL_API_URL ids = HttpxOutcome.success materials →
        fetch_materials_by_ids post ids = Except.ok materials)) ∧
    (∀ (base_url : String) (get : String → HttpxOutcome (List Episode)) (book_id : String),
      (get (base_url ++ "/api/books/" ++ book_id ++ "/episodes") =
          HttpxOutcome.statusError 404 →
        get_episodes base_url get book_id = Except.ok []) ∧
      (∀ status, status ≠ 404 →
        get (base_url ++ "/api/books/" ++ book_id ++ "/episodes") =
          HttpxOutcome.statusError status →
        get_episodes base_url get book_id = Except.error (GoApiError.statusError status)) ∧
      (get (base_url ++ "/api/books/" ++ book_id ++ "/episodes") =
          HttpxOutcome.requestError →
        get_episodes base_url get book_id = Except.error GoApiError.transportError)) := by
  constructor
  · intro post ids
    refine ⟨fun h => ?_, fun status h => ?_, fun materials h => ?_⟩ <;>
      simp [fetch_materials_by_ids, h]
  · intro base_url get book_id
    refine ⟨fun h => ?_, fun status hne h => ?_, fun h => ?_⟩
    · simp [get_episodes, h]
    · simp [get_episodes, h, hne]
    · simp [get_episodes, h]

/-- Witness for C2's amended theorem at concrete oracles: a successful batch
post, a 404 episode fetch, and a 503 episode fetch. -/
theorem batch_fetch_error_propagation_witness :
    fetch_materials_by_ids (fun _ _ => HttpxOutcome.success ([] : List MaterialRecord)) [3] =
      Except.ok [] ∧
    get_episodes "http://go" (fun _ => HttpxOutcome.statusError 404) "b2" = Except.ok [] ∧
    get_episodes "http://go" (fun _ => HttpxOutcome.statusError 503) "b2" =
      Except.error (GoApiError.statusError 503) :=
  ⟨(batch_fetch_error_propagation.1
      (fun _ _ => HttpxOutcome.success ([] : List MaterialRecord)) [3]).2.2 [] rfl,
   (batch_fetch_error_propagation.2 "http://go"
      (fun _ => HttpxOutcome.statusError 404) "b2").1 rfl,
   (batch_fetch_error_propagation.2 "http://go"
      (fun _ => HttpxOutcome.statusError 503) "b2").2.1 503 (by decide) rfl⟩

/-! ## Claim C5 -/

/-- Claim C5: a record whose content exceeds the per-item ceiling is
rendered as exactly the first `max_length` characters followed by the
omission marker stating the number of omitted characters; content at or
under the ceiling is rendered verbatim.  (The ceiling parameter defaults to
5000 at the call sites in `generate_response`.) -/
theorem formatter_truncates_content
    (episodes : List Episode) (e : Episode) (materials : List MaterialRecord)
    (m : MaterialRecord) (max_length : Nat) (he : e ∈ episodes) (hm : m ∈ materials) :
    ((e.content.getD "").length > max_length →
      ((e.content.getD "").take max_length ++
        ("\n... (残り" ++ toString ((e.content.getD "").length - max_length) ++ "文字省略)")) ∈
        format_episodes_lines episodes max_length) ∧
    ((e.content.getD "").length ≤ max_length →
      (e.content.getD "") ∈ format_episodes_lines episodes max_length) ∧
    ((m.content.getD "").length > max_length →
      ((m.content.getD "").take max_length ++
        ("\n... (残り" ++ toString ((m.content.getD "").length - max_length) ++ "文字省略)")) ∈
        format_materials_lines materials max_length) ∧
    ((m.content.getD "").length ≤ max_length →
      (m.content.getD "") ∈ format_materials_lines materials max_length) := by
  refine ⟨fun h => ?_, fun h => ?_, fun h => ?_, fun h => ?_⟩
  · exact mem_format_episodes_lines max_length he (by simp [episode_block, h])
  · exact mem_format_episodes_lines max_length he
      (by simp [episode_block, Nat.not_lt.mpr h])
  · exact mem_format_materials_lines max_length hm (by simp [material_block, h])
  · exact mem_format_materials_lines max_length hm
      (by simp [material_block, Nat.not_lt.mpr h])

/-- Witness for C5: content "abcd" with ceiling 3 keeps its first three
characters plus the omission marker; with ceiling 4 it appears verbatim. -/
theorem formatter_truncates_content_witness :
    ((("abcd" : String).take 3 ++
      ("\n... (残り" ++ toString (("abcd" : String).length - 3) ++ "文字省略)")) ∈
      format_episodes_lines [⟨some "1", some "t", some "abcd"⟩] 3) ∧
    (("abcd" : String) ∈
      format_materials_lines [⟨some "t", some "abcd", some "c"⟩] 4) :=
  ⟨(formatter_truncates_content [⟨some "1", some "t", some "abcd"⟩]
      ⟨some "1", some "t", some "abcd"⟩ [⟨some "t", some "abcd", some "c"⟩]
      ⟨some "t", some "abcd", some "c"⟩ 3 (by decide) (by decide)).1 (by decide),
   (formatter_truncates_content [⟨some "1", some "t", some "abcd"⟩]
      ⟨some "1", some "t", some "abcd"⟩ [⟨some "t", some "abcd", some "c"⟩]
      ⟨some "t", some "abcd", some "c"⟩ 4 (by decide) (by decide)).2.2.2 (by decide)⟩

/-! ## Claim C6 -/

/-- Counterexample to claim C6: a fetched episode whose content carries an
HTML entity and tags is embedded in the context block completely unchanged:
the entity `&amp;` is not decoded, the `</p>` tag is neither converted to a
newline nor stripped, and no whitespace is collapsed.  The claimed
sanitization does not happen for fetched records. -/
theorem fetched_content_not_sanitized_counterexample :
    format_episodes_for_context [⟨some "1", some "t", some "a&amp;b</p>c"⟩] 5000 =
      "=== 参照エピソード ===\n\n--- Episode 1: t ---\na&amp;b</p>c\n--- エピソード終了 ---\n=== 参照エピソード終了 ===\n" ∧
    pyIn "</p>"
      (format_episodes_for_context [⟨some "1", some "t", some "a&amp;b</p>c"⟩] 5000) ∧
    pyIn "&amp;"
      (format_episodes_for_context [⟨some "1", some "t", some "a&amp;b</p>c"⟩] 5000) := by
  refine ⟨by decide, by decide, by decide⟩

/-- Claim C6 (amended): fetched records are embedded verbatim — each
formatted line list is exactly the start marker, then for each record its
raw header / content (subject only to the length ceiling of C5) / end marker,
then the closing marker; no sanitization function is applied to fetched
content.  (The only HTML processing in this service is applied to the LLM
response text, `clean_llm_response`.) -/
theorem formatter_embeds_raw_content :
    (∀ (episodes : List Episode) (max_length : Nat),
      format_episodes_lines episodes max_length =
        "=== 参照エピソード ===" ::
          (episodes.flatMap (episode_block max_length) ++ ["=== 参照エピソード終了 ===\n"])) ∧
    (∀ (materials : List MaterialRecord) (max_length : Nat),
      format_materials_lines materials max_length =
        "=== 参考資料 ===" ::
          (materials.flatMap (material_block max_length) ++ ["=== 参考資料終了 ===\n"])) :=
  ⟨format_episodes_lines_eq, format_materials_lines_eq⟩

/-! ## Claim C7 -/

/-- Counterexample to claim C7: a small `.txt` file whose bytes decode
neither as UTF-8 nor as cp932 (for example the byte sequence `ff fe ff`)
yields no content at all — there is no lossy UTF-8 last resort in
`FileService._read_text_file`, contrary to the claim that a file within the
size limit and the allow-list always yields some decoded content. -/
theorem read_text_file_counterexample :
    read_text_file ⟨".txt", 3, none, none⟩ = none ∧
    pyLower ".txt" ∈ supported_extensions ∧
    (3 : Nat) ≤ 10 * 1024 * 1024 := by
  refine ⟨rfl, by decide, by decide⟩

/-- Claim C7 (amended): files over 10 MB are rejected (no content), content
is decoded as UTF-8 with a fallback to cp932 on decode failure, and when
both decodings fail the read yields no content — there is no lossy UTF-8
last resort. -/
theorem read_text_file_decode_chain (f : DiskFile) :
    (f.size > 10 * 1024 * 1024 → read_text_file f = none) ∧
    (pyLower f.suffix ∉ supported_extensions → read_text_file f = none) ∧
    (pyLower f.suffix ∈ supported_extensions → f.size ≤ 10 * 1024 * 1024 →
      ∀ s, f.utf8Decode = some s → read_text_file f = some s) ∧
    (pyLower f.suffix ∈ supported_extensions → f.size ≤ 10 * 1024 * 1024 →
      f.utf8Decode = none → read_text_file f = f.cp932Decode) := by
  refine ⟨fun h => ?_, fun h => ?_, fun hs hz s hu => ?_, fun hs hz hu => ?_⟩
  · simp [read_text_file, h]
  · simp [read_text_file, h]
  · simp [read_text_file, hs, Nat.not_lt.mpr hz, hu]
  · simp [read_text_file, hs, Nat.not_lt.mpr hz, hu]

/-- Witness for C7's amended theorem on concrete files: an oversize file, a
disallowed extension, a UTF-8 file, and a cp932-only file. -/
theorem read_text_file_decode_chain_witness :
    read_text_file ⟨".txt", 11 * 1024 * 1024, some "x", none⟩ = none ∧
    read_text_file ⟨".exe", 3, some "x", none⟩ = none ∧
    read_text_file ⟨".md", 5, some "hi", none⟩ = some "hi" ∧
    read_text_file ⟨".txt", 5, none, some "日本語"⟩ = some "日本語" :=
  ⟨(read_text_file_decode_chain ⟨".txt", 11 * 1024 * 1024, some "x", none⟩).1 (by decide),
   (read_text_file_decode_chain ⟨".exe", 3, some "x", none⟩).2.1 (by decide),
   (read_text_file_decode_chain ⟨".md", 5, some "hi", none⟩).2.2.1 (by decide) (by decide)
     "hi" rfl,
   (read_text_file_decode_chain ⟨".txt", 5, none, some "日本語"⟩).2.2.2 (by decide)
     (by decide) rfl⟩

/-! ## Claim C9 -/

/-- Counterexample to claim C9: the payload the orchestrator posts to the
LLM provider carries exactly the keys `model`, `prompt` and `stream`; it
contains no `temperature` key, no `max_tokens` key, and in fact no numeric
field at all, so no output-length bound (≈2000 tokens) and no temperature
(≈0.7) is requested. -/
theorem llm_payload_counterexample :
    ((llm_payload "p").map Prod.fst = ["model", "prompt", "stream"]) ∧
    "temperature" ∉ (llm_payload "p").map Prod.fst ∧
    "max_tokens" ∉ (llm_payload "p").map Prod.fst ∧
    ((llm_payload "p").all fun kv =>
      match kv.2 with
      | JsonVal.num _ => false
      | _ => true) = true := by
  refine ⟨by decide, by decide, by decide, by decide⟩

/-- Claim C9 (amended): every LLM invocation posts exactly the body
`{"model": "gpt-oss:120b", "prompt": prompt, "stream": false}` — no
generation parameters (temperature, output-length bound) are sent; and
whenever `generate_response` dispatches at all, the payload it dispatches is
`llm_payload` of the dispatched prompt. -/
theorem llm_payload_exact :
    (∀ prompt, llm_payload prompt =
      [("model", JsonVal.str "gpt-oss:120b"), ("prompt", JsonVal.str prompt),
       ("stream", JsonVal.bool false)]) ∧
    (∀ (env : GenEnv) (request : ChatRequest) (chat_type : String),
      (generate_response env request chat_type).2.sentPayload =
        Option.map llm_payload (generate_response env request chat_type).2.sentPrompt) := by
  refine ⟨fun prompt => rfl, fun env request chat_type => ?_⟩
  unfold generate_response after_context
  dsimp only
  split
  · rfl
  · split
    · rfl
    · split
      · rfl
      · split <;> rfl

/-! ## Claim C8 -/

/-- Claim C8: renaming to an existing destination fails with HTTP 409 and
leaves the filesystem (hence both files) untouched; renaming a missing
source fails with HTTP 404 and changes no file. -/
theorem rename_conflict_leaves_files_untouched
    (unquote : String → String) (fs : ProjectsFs) (project_id old_f new_f : String)
    (now : Nat) (d : ProjDir) (h : fs.lookup project_id = some d) :
    (∀ c c2, d.files.lookup (unquote old_f) = some c →
      d.files.lookup (unquote new_f) = some c2 →
      rename_project_file unquote fs project_id old_f new_f now =
        (ApiOutcome.httpError 409 "新しいファイル名は既に使用されています", fs)) ∧
    (d.files.lookup (unquote old_f) = none →
      rename_project_file unquote fs project_id old_f new_f now =
        (ApiOutcome.httpError 404 "変更対象のファイルが見つかりません", fs)) := by
  constructor
  · intro c c2 h1 h2
    simp [rename_project_file, h, h1, h2]
  · intro h1
    simp [rename_project_file, h, h1]

/-- Witness for C8 on a concrete two-file project. -/
theorem rename_conflict_leaves_files_untouched_witness :
    rename_project_file id [("p1", ⟨[("a.txt", "A"), ("b.txt", "B")], 0⟩)]
        "p1" "a.txt" "b.txt" 9 =
      (ApiOutcome.httpError 409 "新しいファイル名は既に使用されています",
       [("p1", ⟨[("a.txt", "A"), ("b.txt", "B")], 0⟩)]) ∧
    rename_project_file id [("p1", ⟨[("a.txt", "A"), ("b.txt", "B")], 0⟩)]
        "p1" "zz.txt" "c.txt" 9 =
      (ApiOutcome.httpError 404 "変更対象のファイルが見つかりません",
       [("p1", ⟨[("a.txt", "A"), ("b.txt", "B")], 0⟩)]) :=
  ⟨(rename_conflict_leaves_files_untouched id
      [("p1", ⟨[("a.txt", "A"), ("b.txt", "B")], 0⟩)] "p1" "a.txt" "b.txt" 9
      ⟨[("a.txt", "A"), ("b.txt", "B")], 0⟩ rfl).1 "A" "B" rfl rfl,
   (rename_conflict_leaves_files_untouched id
      [("p1", ⟨[("a.txt", "A"), ("b.txt", "B")], 0⟩)] "p1" "zz.txt" "c.txt" 9
      ⟨[("a.txt", "A"), ("b.txt", "B")], 0⟩ rfl).2 rfl⟩

/-! ## Claim C10 -/

/-- Claim C10: saving file content (`PUT`) never 404s on a missing project —
the directory is created and the file written, returning success — while
file upload (`POST`) and file delete return 404 when the project directory
does not exist. -/
theorem save_creates_missing_project
    (unquote : String → String) (fs : ProjectsFs) (project_id filename content : String)
    (form_f file_f : Option String) (up_content : String) (now : Nat)
    (h : fs.lookup project_id = none) :
    save_project_file unquote fs project_id filename content now =
      (ApiOutcome.ok (unquote filename, content.utf8ByteSize),
       fs ++ [(project_id,
          { files := [(unquote filename, content)], meta_updated_at := now })]) ∧
    upload_project_file unquote fs project_id form_f file_f up_content now =
      (ApiOutcome.httpError 404 "プロジェクトが見つかりません", fs) ∧
    delete_project_file unquote fs project_id filename now =
      (ApiOutcome.httpError 404 "プロジェクトが見つかりません", fs) := by
  refine ⟨?_, ?_, ?_⟩
  · simp [save_project_file, write_file, fs_set, h]
  · simp [upload_project_file, h]
  · simp [delete_project_file, h]

/-- Witness for C10 on an empty projects root. -/
theorem save_creates_missing_project_witness :
    save_project_file id [] "p9" "f.txt" "hello" 3 =
      (ApiOutcome.ok ("f.txt", 5), [("p9", ⟨[("f.txt", "hello")], 3⟩)]) ∧
    upload_project_file id [] "p9" (some "f.txt") none "hello" 3 =
      (ApiOutcome.httpError 404 "プロジェクトが見つかりません", []) ∧
    delete_project_file id [] "p9" "f.txt" 3 =
      (ApiOutcome.httpError 404 "プロジェクトが見つかりません", []) :=
  save_creates_missing_project id [] "p9" "f.txt" "hello" (some "f.txt") none "hello" 3 rfl

/-! ## Claim C4 -/

/-- Claim C4: a prompt longer than 30,000 characters is dispatched as its
first 30,000 characters followed by the truncation marker (so the dispatched
text ends with the marker); prompts of at most 30,000 characters are
dispatched unchanged; and whatever `generate_response` dispatches is exactly
`truncate_prompt` of the assembled prompt. -/
theorem prompt_truncated_before_dispatch :
    (∀ p : String, p.length > 30000 →
      truncate_prompt p = p.take 30000 ++ "\n\n[プロンプトが長いため省略されました]" ∧
      ("\n\n[プロンプトが長いため省略されました]" : String).data <:+ (truncate_prompt p).data) ∧
    (∀ p : String, p.length ≤ 30000 → truncate_prompt p = p) ∧
    (∀ (env : GenEnv) (request : ChatRequest) (chat_type : String),
      (generate_response env request chat_type).2.sentPrompt = none ∨
      (generate_response env request chat_type).2.sentPrompt =
        Option.map truncate_prompt (generate_response env request chat_type).2.assembled) := by
  refine ⟨fun p h => ⟨?_, ?_⟩, fun p h => ?_, fun env request chat_type => ?_⟩
  · unfold truncate_prompt
    rw [if_pos h]
  · unfold truncate_prompt
    rw [if_pos h, string_data_append]
    exact List.suffix_append _ _
  · unfold truncate_prompt
    rw [if_neg (Nat.not_lt.mpr h)]
  · unfold generate_response after_context
    dsimp only
    split
    · exact Or.inl rfl
    · split
      · exact Or.inl rfl
      · split
        · exact Or.inl rfl
        · split <;> exact Or.inr rfl

/-- Witness for C4 at a 30,001-character prompt and a short prompt. -/
theorem prompt_truncated_before_dispatch_witness :
    (truncate_prompt bigPrompt =
      bigPrompt.take 30000 ++ "\n\n[プロンプトが長いため省略されました]" ∧
     ("\n\n[プロンプトが長いため省略されました]" : String).data <:+
       (truncate_prompt bigPrompt).data) ∧
    truncate_prompt "こんにちは" = "こんにちは" :=
  ⟨prompt_truncated_before_dispatch.1 bigPrompt bigPrompt_long,
   prompt_truncated_before_dispatch.2.1 "こんにちは" (by decide)⟩

/-! ## Claim C3 -/

/-- Every return path of `generate_response` carries the assistant role. -/
theorem generate_response_role_assistant (env : GenEnv) (request : ChatRequest)
    (chat_type : String) :
    ((generate_response env request chat_type).1).role = "assistant" := by
  unfold generate_response after_context
  dsimp only
  split
  · rfl
  · split
    · rfl
    · split
      · rfl
      · split <;> rfl

/-- If the LLM oracle raises, `after_context` answers with the classified
fallback message whenever it called the LLM at all. -/
theorem after_context_llm_error (env : GenEnv) (request : ChatRequest)
    (chat_type content_context : String) (content_not_found : List String)
    (e : String) (hllm : ∀ pay, env.llm pay = Except.error e) :
    (after_context env request chat_type content_context content_not_found).2.llmCalled = true →
    (after_context env request chat_type content_context content_not_found).1 =
      handle_llm_exception e env.now env.nowMs := by
  unfold after_context
  dsimp only
  split
  · intro h; simp at h
  · split
    · intro h; simp at h
    · rw [hllm _]
      intro _
      rfl

/-- An exception escaping to the boundary of `generate_response` is always
converted into the classified fallback message. -/
theorem generate_response_llm_error (env : GenEnv) (request : ChatRequest)
    (chat_type e : String) (hllm : ∀ pay, env.llm pay = Except.error e) :
    (generate_response env request chat_type).2.llmCalled = true →
    (generate_response env request chat_type).1 =
      handle_llm_exception e env.now env.nowMs := by
  unfold generate_response
  dsimp only
  split
  · intro h; simp at h
  · exact after_context_llm_error env request chat_type _ _ e hllm

/-- Claim C3: `generate_response` is total at its boundary — every reply it
produces (on any path) is an assistant-role `ChatMessage`, the known failure
substrings (504/timeout, API_KEY, quota/limit) are mapped to three pairwise
distinct canned messages, and whenever the LLM call raises, the reply is the
boundary's classified fallback.  (No exception propagates: the model is a
total function into `ChatMessage × GenTrace`.) -/
theorem exceptions_become_assistant_messages :
    (∀ (env : GenEnv) (request : ChatRequest) (chat_type : String),
      ((generate_response env request chat_type).1).role = "assistant") ∧
    (∀ e, (pyIn "504" e ∨ pyIn "timeout" (pyLower e)) →
      classify_error e = "サーバーの応答に時間がかかっています。プロンプトを短くして再度お試しください。") ∧
    (∀ e, ¬(pyIn "504" e ∨ pyIn "timeout" (pyLower e)) → pyIn "API_KEY" e →
      classify_error e = "API設定に問題があります。管理者にお問い合わせください。") ∧
    (∀ e, ¬(pyIn "504" e ∨ pyIn "timeout" (pyLower e)) → ¬pyIn "API_KEY" e →
      (pyIn "quota" (pyLower e) ∨ pyIn "limit" (pyLower e)) →
      classify_error e = "API利用制限に達しています。しばらくお待ちください。") ∧
    (("サーバーの応答に時間がかかっています。プロンプトを短くして再度お試しください。" : String) ≠
       "API設定に問題があります。管理者にお問い合わせください。" ∧
     ("サーバーの応答に時間がかかっています。プロンプトを短くして再度お試しください。" : String) ≠
       "API利用制限に達しています。しばらくお待ちください。" ∧
     ("API設定に問題があります。管理者にお問い合わせください。" : String) ≠
       "API利用制限に達しています。しばらくお待ちください。") ∧
    (∀ (env : GenEnv) (request : ChatRequest) (chat_type e : String),
      (∀ pay, env.llm pay = Except.error e) →
      (generate_response env request chat_type).2.llmCalled = true →
      (generate_response env request chat_type).1 =
        handle_llm_exception e env.now env.nowMs ∧
      (handle_llm_exception e env.now env.nowMs).content = classify_error e ∧
      (handle_llm_exception e env.now env.nowMs).role = "assistant") := by
  refine ⟨fun env request chat_type => generate_response_role_assistant env request chat_type,
    fun e h => ?_, fun e h1 h2 => ?_, fun e h1 h2 h3 => ?_, by decide,
    fun env request chat_type e hllm hc =>
      ⟨generate_response_llm_error env request chat_type e hllm hc, rfl, rfl⟩⟩
  · unfold classify_error
    rw [if_pos h]
  · unfold classify_error
    rw [if_neg h1, if_pos h2]
  · unfold classify_error
    rw [if_neg h1, if_neg h2, if_pos h3]

/-- Witness for C3: at a concrete request the timeout exception becomes the
canned timeout reply with assistant role. -/
theorem exceptions_become_assistant_messages_witness :
    (generate_response envTimeout ⟨[⟨none, "user", "hi", none⟩], [], none⟩ "dictionary").1 =
      handle_llm_exception "Read timeout" envTimeout.now envTimeout.nowMs ∧
    (handle_llm_exception "Read timeout" envTimeout.now envTimeout.nowMs).content =
      classify_error "Read timeout" ∧
    classify_error "Read timeout" =
      "サーバーの応答に時間がかかっています。プロンプトを短くして再度お試しください。" ∧
    ((generate_response envTimeout ⟨[⟨none, "user", "hi", none⟩], [], none⟩ "dictionary").1).role =
      "assistant" :=
  ⟨(exceptions_become_assistant_messages.2.2.2.2.2 envTimeout
      ⟨[⟨none, "user", "hi", none⟩], [], none⟩ "dictionary" "Read timeout"
      (fun _ => rfl) (by decide)).1,
   (exceptions_become_assistant_messages.2.2.2.2.2 envTimeout
      ⟨[⟨none, "user", "hi", none⟩], [], none⟩ "dictionary" "Read timeout"
      (fun _ => rfl) (by decide)).2.1,
   exceptions_become_assistant_messages.2.1 "Read timeout" (by decide),
   exceptions_become_assistant_messages.1 envTimeout
     ⟨[⟨none, "user", "hi", none⟩], [], none⟩ "dictionary"⟩

/-! ## Claim C1 -/

/-- One recognized-but-missing project source contributes exactly its tag to
`content_not_found` and nothing to `content_context`. -/
theorem process_project_source_missing (env : GenEnv) {s : String}
    (hrec : project_source_recognized s) (hmiss : project_source_missing env s)
    (cc : String) (front : List String) :
    process_project_source env (cc, front) s = (cc, front ++ [project_missing_tag s]) := by
  unfold process_project_source project_missing_tag
  have hcond : (pyStartsWith s "project:" || pyStartsWith s "book:") = true := by
    rcases hrec with h | h <;> simp [h]
  rw [if_pos hcond]
  by_cases hlen : 3 ≤ (pySplit s ':').length
  · rcases hmiss hlen with heq | heq <;>
      simp only [List.getD_eq_getElem?_getD] at heq <;> simp [hlen, heq]
  · have h2 : 2 ≤ (pySplit s ':').length := by
      rcases hrec with h | h
      · exact pyStartsWith_colon_two h (by decide)
      · exact pyStartsWith_colon_two h (by decide)
    simp [hlen, h2]

/-- Material analog of `process_project_source_missing`. -/
theorem process_material_source_missing (env : GenEnv) {s : String}
    (hrec : material_source_recognized s) (hmiss : material_source_missing env s)
    (cc : String) (front : List String) :
    process_material_source env (cc, front) s = (cc, front ++ [material_missing_tag s]) := by
  unfold process_material_source material_missing_tag
  have hcond : (pyStartsWith s "material:" || pyStartsWith s "book:") = true := by
    rcases hrec with h | h <;> simp [h]
  rw [if_pos hcond]
  by_cases hlen : 3 ≤ (pySplit s ':').length
  · rcases hmiss hlen with heq | heq <;>
      simp only [List.getD_eq_getElem?_getD] at heq <;> simp [hlen, heq]
  · have h2 : 2 ≤ (pySplit s ':').length := by
      rcases hrec with h | h
      · exact pyStartsWith_colon_two h (by decide)
      · exact pyStartsWith_colon_two h (by decide)
    simp [hlen, h2]

/-- The source loop over all-missing project descriptors gathers exactly
their tags, in order, and no context. -/
theorem foldl_project_missing (env : GenEnv) (sources : List String)
    (h : ∀ s ∈ sources, project_source_recognized s ∧ project_source_missing env s)
    (front : List String) :
    sources.foldl (process_project_source env) ("", front) =
      ("", front ++ sources.map project_missing_tag) := by
  induction sources generalizing front with
  | nil => simp
  | cons a rest ih =>
    obtain ⟨hrec, hmiss⟩ := h a (List.mem_cons_self a rest)
    rw [List.foldl_cons, process_project_source_missing env hrec hmiss "" front,
      ih (fun s hs => h s (List.mem_cons_of_mem _ hs)) (front ++ [project_missing_tag a])]
    simp

/-- Material analog of `foldl_project_missing`. -/
theorem foldl_material_missing (env : GenEnv) (sources : List String)
    (h : ∀ s ∈ sources, material_source_recognized s ∧ material_source_missing env s)
    (front : List String) :
    sources.foldl (process_material_source env) ("", front) =
      ("", front ++ sources.map material_missing_tag) := by
  induction sources generalizing front with
  | nil => simp
  | cons a rest ih =>
    obtain ⟨hrec, hmiss⟩ := h a (List.mem_cons_self a rest)
    rw [List.foldl_cons, process_material_source_missing env hrec hmiss "" front,
      ih (fun s hs => h s (List.mem_cons_of_mem _ hs)) (front ++ [material_missing_tag a])]
    simp

/-- `build_context` for a project chat whose sources are all missing. -/
theorem build_context_project_missing (env : GenEnv) (request : ChatRequest)
    (hsrc : request.sources ≠ [])
    (h : ∀ s ∈ request.sources, project_source_recognized s ∧ project_source_missing env s) :
    build_context env request "project" = ("", request.sources.map project_missing_tag) := by
  unfold build_context
  rw [if_pos ⟨rfl, hsrc⟩]
  simpa using foldl_project_missing env request.sources h []

/-- `build_context` for a material chat whose sources are all missing. -/
theorem build_context_material_missing (env : GenEnv) (request : ChatRequest)
    (hsrc : request.sources ≠ [])
    (h : ∀ s ∈ request.sources, material_source_recognized s ∧ material_source_missing env s) :
    build_context env request "material" = ("", request.sources.map material_missing_tag) := by
  unfold build_context
  rw [if_neg (by simp), if_pos ⟨rfl, hsrc⟩]
  simpa using foldl_material_missing env request.sources h []

/-- Claim C1: when every source descriptor of a project or material chat
resolves to zero records (empty fetch result or a raised exception), the
orchestrator returns the error-flavored `ChatMessage` naming each missing
descriptor as `kind:container`, and the LLM HTTP call is never issued. -/
theorem missing_sources_short_circuit :
    (∀ (env : GenEnv) (request : ChatRequest), request.sources ≠ [] →
      (∀ s ∈ request.sources, project_source_recognized s ∧ project_source_missing env s) →
      (generate_response env request "project").2.llmCalled = false ∧
      (generate_response env request "project").1 =
        missing_data_message "project" (request.sources.map project_missing_tag)
          env.now env.nowMs ∧
      (∀ s ∈ request.sources, (project_missing_tag s).data <:+:
        ((generate_response env request "project").1.content).data)) ∧
    (∀ (env : GenEnv) (request : ChatRequest), request.sources ≠ [] →
      (∀ s ∈ request.sources, material_source_recognized s ∧ material_source_missing env s) →
      (generate_response env request "material").2.llmCalled = false ∧
      (generate_response env request "material").1 =
        missing_data_message "material" (request.sources.map material_missing_tag)
          env.now env.nowMs ∧
      (∀ s ∈ request.sources, (material_missing_tag s).data <:+:
        ((generate_response env request "material").1.content).data)) := by
  constructor
  · intro env request hsrc hall
    have hb := build_context_project_missing env request hsrc hall
    have hmap : request.sources.map project_missing_tag ≠ [] := by
      intro hcon; exact hsrc (List.map_eq_nil_iff.mp hcon)
    have hgen : generate_response env request "project" =
        (missing_data_message "project" (request.sources.map project_missing_tag)
          env.now env.nowMs, ⟨false, none, none, none⟩) := by
      simp [generate_response, hb, hmap]
    refine ⟨by rw [hgen], by rw [hgen], fun s hs => ?_⟩
    rw [hgen]
    exact str_inf_extend _ _
      (pyJoin_mem_inf ", " (List.mem_map_of_mem project_missing_tag hs))
  · intro env request hsrc hall
    have hb := build_context_material_missing env request hsrc hall
    have hmap : request.sources.map material_missing_tag ≠ [] := by
      intro hcon; exact hsrc (List.map_eq_nil_iff.mp hcon)
    have hgen : generate_response env request "material" =
        (missing_data_message "material" (request.sources.map material_missing_tag)
          env.now env.nowMs, ⟨false, none, none, none⟩) := by
      simp [generate_response, hb, hmap]
    refine ⟨by rw [hgen], by rw [hgen], fun s hs => ?_⟩
    rw [hgen]
    exact str_inf_extend _ _
      (pyJoin_mem_inf ", " (List.mem_map_of_mem material_missing_tag hs))

/-- Witness for C1 at concrete project and material requests whose sources
all come back empty (or raise). -/
theorem missing_sources_short_circuit_witness :
    ((generate_response envMissing ⟨[], ["project:b7:1,2"], none⟩ "project").2.llmCalled = false ∧
     (generate_response envMissing ⟨[], ["project:b7:1,2"], none⟩ "project").1 =
       missing_data_message "project" (["project:b7:1,2"].map project_missing_tag) 2 2000 ∧
     (project_missing_tag "project:b7:1,2").data <:+:
       ((generate_response envMissing ⟨[], ["project:b7:1,2"], none⟩ "project").1.content).data) ∧
    ((generate_response envMissing ⟨[], ["material:b8:3", "book:b9"], none⟩ "material").2.llmCalled = false ∧
     (generate_response envMissing ⟨[], ["material:b8:3", "book:b9"], none⟩ "material").1 =
       missing_data_message "material"
         (["material:b8:3", "book:b9"].map material_missing_tag) 2 2000) := by
  have hp := missing_sources_short_circuit.1 envMissing ⟨[], ["project:b7:1,2"], none⟩
    (by decide)
    (fun s hs => by
      rw [List.mem_singleton] at hs
      subst hs
      exact ⟨Or.inl (by decide), fun _ => Or.inl rfl⟩)
  have hm := missing_sources_short_circuit.2 envMissing ⟨[], ["material:b8:3", "book:b9"], none⟩
    (by decide)
    (fun s hs => by
      rcases List.mem_cons.mp hs with h1 | h1
      · subst h1
        exact ⟨Or.inl (by decide), fun _ => Or.inr rfl⟩
      · rw [List.mem_singleton] at h1
        subst h1
        exact ⟨Or.inr (by decide), fun _ => Or.inr rfl⟩)
  exact ⟨⟨hp.1, hp.2.1, hp.2.2 "project:b7:1,2" (by decide)⟩, ⟨hm.1, hm.2.1⟩⟩

